import Mathlib

/-!
Verification development for the opnet-token-dashboard repository.

The two subsystems under study are:
* the `NetworkStats` polling component (`fetchData`), which polls the chain
  head, gas parameters, the latest block and a window of recent blocks and
  publishes them into component state;
* the `Portfolio` component (`addToken`, `calcSupplyShare`,
  `formatTokenAmount`) and the `TokenExplorer` formatter
  (`formatTokenAmount`), which manage a user-curated list of tracked token
  holdings.

JavaScript `bigint` values are modelled as `Int` (heights, which the code
compares against `0n`) or `Nat` (token amounts, which are unsigned),
`number` values as `Nat`/`Int`, strings as Lean `String`, and the
`async`/`try`/`catch` control flow of one invocation as a pure function from
the pre-state plus an oracle of fetch outcomes (`Option`/`Except` for each
awaited step) to the post-state.
-/

/-! ### Digit-string helpers

`BigInt.prototype.toString`, `String.prototype.padStart`,
`replace(/0+$/, '')`, `slice(0, 4)` and `toLocaleString` (digit grouping
with `','` every three digits, as in the en-US default locale) modelled on
`List Char`. -/

/-- The decimal digit character of `n < 10`. -/
def digitChar (n : Nat) : Char := Char.ofNat (48 + n)

/-- Fuelled most-significant-first decimal digits of a natural number. -/
def natDigitsAux : Nat → Nat → List Char
  | 0, _ => []
  | fuel + 1, n =>
    if n < 10 then [digitChar n]
    else natDigitsAux fuel (n / 10) ++ [digitChar (n % 10)]

/-- Decimal digit characters of `n`, most significant first; `"0"` for `0`.
Models `BigInt.prototype.toString()`. -/
def natDigits (n : Nat) : List Char := natDigitsAux (n + 1) n

/-- Models `String.prototype.padStart(width, '0')`: left-pad with `'0'` up to
`width` characters. -/
def padStartZeros (l : List Char) (width : Nat) : List Char :=
  List.replicate (width - l.length) '0' ++ l

/-- Models `replace(/0+$/, '')`: strip all trailing `'0'` characters. -/
def stripTrailingZeros (l : List Char) : List Char :=
  (l.reverse.dropWhile (fun c => c = '0')).reverse

/-- Comma insertion pass over a least-significant-digit-first list: after
every third digit that is followed by more digits, emit a `','`. -/
def insertCommasAux : List Char → Nat → List Char
  | [], _ => []
  | c :: rest, k =>
    if k = 2 then
      match rest with
      | [] => [c]
      | _ => c :: ',' :: insertCommasAux rest 0
    else c :: insertCommasAux rest (k + 1)

/-- Models `BigInt.prototype.toLocaleString()` in the en-US default locale:
group the decimal digits of `n` in threes with `','` separators. -/
def groupedDigits (n : Nat) : List Char :=
  (insertCommasAux (natDigits n).reverse 0).reverse

namespace TokenExplorer

/-- Embedding of `formatTokenAmount` from the `TokenExplorer` component
(src/unnamed/part_002, lines 20–31):

```ts
const divisor = 10n ** BigInt(decimals);
const whole = amount / divisor;
const remainder = amount % divisor;
const remainderStr = remainder.toString().padStart(decimals, '0');
const trimmed = remainderStr.replace(/0+$/, '');
if (trimmed.length === 0) return whole.toLocaleString();
return `${whole.toLocaleString()}.${trimmed}`;
``` -/
def formatTokenAmount (amount : Nat) (decimals : Nat) : String :=
  let divisor := 10 ^ decimals
  let whole := amount / divisor
  let remainder := amount % divisor
  let remainderStr := padStartZeros (natDigits remainder) decimals
  let trimmed := stripTrailingZeros remainderStr
  if trimmed.length = 0 then ⟨groupedDigits whole⟩
  else ⟨groupedDigits whole ++ '.' :: trimmed⟩

end TokenExplorer

namespace Portfolio

/-- Embedding of `formatTokenAmount` from the `Portfolio` component
(src/unnamed/part_003, lines 312–323); identical to the `TokenExplorer`
one except that the trimmed fractional part is further cut with
`.slice(0, 4)`. -/
def formatTokenAmount (amount : Nat) (decimals : Nat) : String :=
  let divisor := 10 ^ decimals
  let whole := amount / divisor
  let remainder := amount % divisor
  let remainderStr := padStartZeros (natDigits remainder) decimals
  let trimmed := (stripTrailingZeros remainderStr).take 4
  if trimmed.length = 0 then ⟨groupedDigits whole⟩
  else ⟨groupedDigits whole ++ '.' :: trimmed⟩

/-- Embedding of `calcSupplyShare` (src/unnamed/part_003, lines 332–335):

```ts
if (totalSupply === 0n) return 0;
return Number((balance * 10000n) / totalSupply) / 100;
```

Balances and supplies are unsigned big integers, so the truncating bigint
division is `Nat` division; the final division by `100` is exact rational
arithmetic (the `Number` conversion is exact for the magnitudes at stake). -/
def calcSupplyShare (balance : Nat) (totalSupply : Nat) : ℚ :=
  if totalSupply = 0 then 0
  else ((balance * 10000) / totalSupply : Nat) / 100

end Portfolio

namespace NetworkStats

/-- The `bitcoin` fee field of the gas-parameters response
(src/unnamed/part_003, lines 11–18). -/
structure BitcoinFees where
  conservative : Nat
  low : Nat
  medium : Nat
  high : Nat
deriving DecidableEq

/-- The `GasData` interface (src/unnamed/part_003, lines 4–19). -/
structure GasData where
  blockNumber : Int
  gasUsed : Int
  targetGasLimit : Int
  baseGas : Int
  gasPerSat : Int
  ema : Int
  bitcoin : BitcoinFees
deriving DecidableEq

/-- The `BlockData` interface (src/unnamed/part_003, lines 21–28). -/
structure BlockData where
  height : Int
  hash : String
  time : Int
  txCount : Nat
  gasUsed : Int
  size : Nat
deriving DecidableEq

/-- The field-by-field copy `blocks.map((b) => ({height: BigInt(b.height), ...}))`
applied to each fetched block (src/unnamed/part_003, lines 87–94 and 108–115). -/
def toBlockData (b : BlockData) : BlockData :=
  { height := b.height, hash := b.hash, time := b.time,
    txCount := b.txCount, gasUsed := b.gasUsed, size := b.size }

/-- The React state of the `NetworkStats` component (src/unnamed/part_003,
lines 59–65), plus `active`, which records whether the component's interval
is still scheduled (`true` until the `useEffect` cleanup handler on lines
130–134 runs `clearInterval`). -/
structure NSState where
  blockHeight : Option Int
  gasData : Option GasData
  latestBlock : Option BlockData
  recentBlocks : List BlockData
  lastUpdate : Nat
  pulseBlock : Bool
  active : Bool
deriving DecidableEq

/-- The outcomes of the awaited provider calls of one `fetchData` cycle:
`none` models the corresponding `await` throwing (which jumps to the
`catch {}` on line 118), `some` the resolved value.  `headAndGas` is the
joined `Promise.all([getBlockNumber(), gasParameters()])`, which resolves
only when both calls succeed. -/
structure FetchOutcome where
  headAndGas : Option (Int × GasData)
  blockAtHead : Option BlockData
  blockBatch : Option (List BlockData)
deriving DecidableEq

/-- The loop of src/unnamed/part_003, lines 97–103:
`for (i = 0; i < 6; i++) { num = height - BigInt(i); if (num >= 0n) push(num); }`. -/
def blockNumbers (height : Int) : List Int :=
  (List.range 6).filterMap
    (fun i : Nat => if 0 ≤ height - (i : Int) then some (height - (i : Int)) else none)

/-- Embedding of one invocation of `fetchData` (src/unnamed/part_003, lines
67–121).  `connected` is `provider && isConnected`, `now` the value of
`Date.now()` read on line 79.  The returned `Option Nat` is the delay of the
`setTimeout(() => setPulseBlock(false), 1000)` scheduled on line 83, `none`
when no pulse-clear was scheduled this cycle.  Each `setXxx` call takes
effect as soon as it runs, so a later `await` throwing leaves the earlier
updates in place, exactly as in the source. -/
def fetchData (connected : Bool) (now : Nat) (s : NSState) (o : FetchOutcome) :
    NSState × Option Nat :=
  match connected with
  | false => (s, none)
  | true =>
    match o.headAndGas with
    | none => (s, none)
    | some (height, gas) =>
      let heightChanged : Bool :=
        match s.blockHeight with
        | none => false
        | some prev => if height = prev then false else true
      let s1 : NSState :=
        { s with blockHeight := some height, gasData := some gas, lastUpdate := now,
                 pulseBlock := if heightChanged then true else s.pulseBlock }
      let clear : Option Nat := if heightChanged then some 1000 else none
      let published : NSState :=
        match o.blockAtHead with
        | none => s1
        | some b =>
          let s2 : NSState := { s1 with latestBlock := some (toBlockData b) }
          let nums := blockNumbers height
          if 0 < nums.length then
            match o.blockBatch with
            | none => s2
            | some bs => { s2 with recentBlocks := bs.map toBlockData }
          else s2
      (published, clear)

/-- The `useEffect` cleanup handler (src/unnamed/part_003, lines 130–134):
`clearInterval` cancels the schedule; it touches none of the published
state and performs no other bookkeeping. -/
def stopComponent (s : NSState) : NSState := { s with active := false }

end NetworkStats

namespace Portfolio

/-- The `PortfolioToken` interface (src/unnamed/part_003, lines 290–298). -/
structure PortfolioToken where
  address : String
  name : String
  symbol : String
  decimals : Nat
  totalSupply : Nat
  balance : Nat
  supplyShare : ℚ
deriving DecidableEq

/-- The React state of the `Portfolio` component that `addToken` reads and
writes (src/unnamed/part_003, lines 481–484). -/
structure PortfolioState where
  tokens : List PortfolioToken
  inputAddr : String
  loading : Bool
  error : Option String
deriving DecidableEq

/-- The context `addToken` closes over: `connected` is
`provider && isConnected` from `useOPNet`, `walletConnected` is
`walletAddress !== null`, and `hasWalletObj` is the truthiness of
`walletAddressObj` (src/unnamed/part_003, lines 486–488 and 520). -/
structure AddContext where
  connected : Bool
  walletConnected : Bool
  hasWalletObj : Bool
deriving DecidableEq

/-- The outcomes of the awaited contract calls of one `addToken` invocation:
`metadata` is the joined `Promise.all([name(), symbol(), decimals(),
totalSupply()])` — `.error msg` models any of the four throwing an `Error`
with message `msg`; `balanceOf` is the optional `contract.balanceOf` call,
`none` modelling its rejection. -/
structure AddOutcome where
  metadata : Except String (String × String × Nat × Nat)
  balanceOf : Option Nat

/-- Models `String.prototype.trim()` on the JS side: drop leading and
trailing whitespace. -/
def jsTrim (s : String) : String :=
  ⟨((s.data.dropWhile Char.isWhitespace).reverse.dropWhile Char.isWhitespace).reverse⟩

/-- The balance obtained by lines 519–527 of src/unnamed/part_003: `0n`
unless `walletConnected && walletAddressObj`, in which case the result of
`contract.balanceOf`, with a rejection tolerated as `0n`. -/
def fetchedBalance (ctx : AddContext) (o : AddOutcome) : Nat :=
  if ctx.walletConnected && ctx.hasWalletObj then
    match o.balanceOf with
    | some b => b
    | none => 0
  else 0

/-- Embedding of one invocation of `addToken` (src/unnamed/part_003, lines
490–550):

* `addr = inputAddr.trim()`; `if (!addr || !provider || !isConnected) return;`
  — the call returns with no state change at all (in particular no error
  message is set);
* a case-sensitive exact duplicate (`tokens.some(t => t.address === addr)`)
  sets the error `'Token already added'` and returns;
* otherwise the four metadata fetches are joined: if they fail, `catch`
  records `Failed to load token: <msg>` and `finally` clears `loading`;
* on success the balance is fetched only when
  `walletConnected && walletAddressObj`, its failure tolerated with balance
  `0`, and the new holding is appended to `tokens`. -/
def addToken (ctx : AddContext) (s : PortfolioState) (o : AddOutcome) : PortfolioState :=
  let addr := jsTrim s.inputAddr
  if addr = "" ∨ ¬ ctx.connected then s
  else if s.tokens.any (fun t => t.address == addr) then
    { s with error := some "Token already added" }
  else
    match o.metadata with
    | .error msg =>
      { s with loading := false, error := some ("Failed to load token: " ++ msg) }
    | .ok (name, symbol, decimals, totalSupply) =>
      let balance : Nat := fetchedBalance ctx o
      let token : PortfolioToken :=
        { address := addr, name := name, symbol := symbol, decimals := decimals,
          totalSupply := totalSupply, balance := balance,
          supplyShare := calcSupplyShare balance totalSupply }
      { s with tokens := s.tokens ++ [token], inputAddr := "",
               loading := false, error := none }

end Portfolio

/-- The fractional digit block both formatters display: the decimal digits
of `amount mod 10 ^ decimals`, left-padded to `decimals` characters, with
trailing zeros stripped. -/
def fracDigits (amount decimals : Nat) : List Char :=
  stripTrailingZeros (padStartZeros (natDigits (amount % 10 ^ decimals)) decimals)

/-! ### Concrete sample data

Concrete states and fetch outcomes used by the closed theorems below. -/

namespace NetworkStats

/-- Concrete gas parameters. -/
def gas0 : GasData :=
  { blockNumber := 90, gasUsed := 10, targetGasLimit := 100, baseGas := 2,
    gasPerSat := 3, ema := 4,
    bitcoin := { conservative := 5, low := 1, medium := 2, high := 3 } }

/-- A concrete block summary at height `h`. -/
def mkBlock (h : Int) : BlockData :=
  { height := h, hash := "hash", time := 1700000000, txCount := 2,
    gasUsed := 7, size := 512 }

/-- The component state right after mount: all `useState` initial values,
interval scheduled. -/
def initialNSState : NSState :=
  { blockHeight := none, gasData := none, latestBlock := none,
    recentBlocks := [], lastUpdate := 0, pulseBlock := false, active := true }

/-- A state that has published head height 5. -/
def stateAt5 : NSState :=
  { blockHeight := some 5, gasData := some gas0, latestBlock := some (mkBlock 5),
    recentBlocks := [mkBlock 5, mkBlock 4], lastUpdate := 50,
    pulseBlock := false, active := true }

/-- A cycle whose head height resolves to 3 and whose later steps fail. -/
def outcomeDrop3 : FetchOutcome :=
  { headAndGas := some (3, gas0), blockAtHead := none, blockBatch := none }

/-- A cycle whose combined head-and-gas fetch resolves at height 6 but whose
`getBlock` call rejects. -/
def outcomeBlockFail6 : FetchOutcome :=
  { headAndGas := some (6, gas0), blockAtHead := none, blockBatch := none }

/-- A fully successful cycle at height 7. -/
def outcomeFull7 : FetchOutcome :=
  { headAndGas := some (7, gas0), blockAtHead := some (mkBlock 7),
    blockBatch := some [mkBlock 7, mkBlock 6, mkBlock 5, mkBlock 4,
      mkBlock 3, mkBlock 2] }

end NetworkStats

namespace Portfolio

/-- Context with the RPC provider connected and no wallet identity. -/
def ctxNoWallet : AddContext :=
  { connected := true, walletConnected := false, hasWalletObj := false }

/-- Context with the RPC provider connected and a wallet identity present. -/
def ctxWallet : AddContext :=
  { connected := true, walletConnected := true, hasWalletObj := true }

/-- An empty collection with a pending address in the input field. -/
def stateReady : PortfolioState :=
  { tokens := [], inputAddr := "bc1ptoken", loading := false, error := none }

/-- An empty collection whose input field holds only whitespace. -/
def stateBlankInput : PortfolioState :=
  { tokens := [], inputAddr := "   ", loading := false, error := none }

/-- A concrete tracked holding. -/
def tokenSample : PortfolioToken :=
  { address := "bc1ptoken", name := "Token", symbol := "TKN", decimals := 8,
    totalSupply := 1000, balance := 0, supplyShare := 0 }

/-- A collection already tracking `tokenSample`, with the same address typed
into the input field again. -/
def stateWithToken : PortfolioState :=
  { tokens := [tokenSample], inputAddr := "bc1ptoken", loading := false,
    error := none }

/-- An `addToken` invocation whose metadata batch rejects. -/
def outcomeMetaFail : AddOutcome :=
  { metadata := .error "boom", balanceOf := none }

/-- An `addToken` invocation whose metadata batch resolves and whose
`balanceOf` call rejects. -/
def outcomeMetaOk : AddOutcome :=
  { metadata := .ok ("Token", "TKN", 8, 1000), balanceOf := none }

/-- The state after a successful `addToken` on `stateReady`, with the same
address typed into the input field again. -/
def stateAfterAdd : PortfolioState :=
  { tokens := (addToken ctxNoWallet stateReady outcomeMetaOk).tokens,
    inputAddr := stateReady.inputAddr, loading := false, error := none }

end Portfolio

/-! ### Digit lemmas -/

lemma string_mk_inj {l₁ l₂ : List Char} : String.mk l₁ = String.mk l₂ ↔ l₁ = l₂ := by
  constructor
  · intro h; injection h
  · intro h; rw [h]

lemma natDigitsAux_exists_ne_zero {fuel n : Nat} (hfuel : n < 10 ^ fuel) (hn : n ≠ 0) :
    ∃ c ∈ natDigitsAux fuel n, c ≠ '0' := by
  induction fuel generalizing n with
  | zero => rw [pow_zero] at hfuel; omega
  | succ f ih =>
    rw [natDigitsAux]
    split
    · refine ⟨digitChar n, List.mem_singleton.mpr rfl, ?_⟩
      rename_i hlt
      interval_cases n <;> simp_all [digitChar]
    · rename_i hge
      have h1 : n / 10 ≠ 0 := by omega
      have h2 : n / 10 < 10 ^ f := by
        rw [Nat.div_lt_iff_lt_mul (by norm_num)]
        calc n < 10 ^ (f + 1) := hfuel
          _ = 10 ^ f * 10 := by rw [pow_succ]
      obtain ⟨c, hc, hcne⟩ := ih h2 h1
      exact ⟨c, List.mem_append_left _ hc, hcne⟩

lemma natDigits_all_zero_iff (n : Nat) : (∀ c ∈ natDigits n, c = '0') ↔ n = 0 := by
  constructor
  · intro hall
    by_contra hn
    have hfuel : n < 10 ^ (n + 1) :=
      lt_of_lt_of_le (Nat.lt_pow_self (by norm_num) n)
        (Nat.pow_le_pow_right (by norm_num) (Nat.le_succ n))
    obtain ⟨c, hc, hne⟩ := natDigitsAux_exists_ne_zero hfuel hn
    exact hne (hall c hc)
  · rintro rfl c hc
    simp only [natDigits, natDigitsAux] at hc
    simp at hc
    simp [hc, digitChar]

lemma stripTrailingZeros_eq_nil_iff (l : List Char) :
    stripTrailingZeros l = [] ↔ ∀ c ∈ l, c = '0' := by
  rw [stripTrailingZeros, List.reverse_eq_nil_iff, List.dropWhile_eq_nil_iff]
  constructor
  · intro h c hc
    simpa using h c (List.mem_reverse.mpr hc)
  · intro h c hc
    simpa using h c (List.mem_reverse.mp hc)

lemma padStartZeros_all_zero_iff (l : List Char) (w : Nat) :
    (∀ c ∈ padStartZeros l w, c = '0') ↔ ∀ c ∈ l, c = '0' := by
  unfold padStartZeros
  constructor
  · intro h c hc
    exact h c (List.mem_append_right _ hc)
  · intro h c hc
    rcases List.mem_append.mp hc with hrep | hmem
    · exact (List.eq_of_mem_replicate hrep)
    · exact h c hmem

lemma fracDigits_eq_nil_iff (a d : Nat) : fracDigits a d = [] ↔ a % 10 ^ d = 0 := by
  rw [fracDigits, stripTrailingZeros_eq_nil_iff, padStartZeros_all_zero_iff,
    natDigits_all_zero_iff]

lemma mem_blockNumbers {h x : Int} :
    x ∈ NetworkStats.blockNumbers h ↔ 0 ≤ x ∧ h - 5 ≤ x ∧ x ≤ h := by
  rw [NetworkStats.blockNumbers, List.mem_filterMap]
  constructor
  · rintro ⟨i, hi, hfi⟩
    rw [List.mem_range] at hi
    split at hfi
    · rename_i hnn
      obtain rfl := Option.some.inj hfi
      omega
    · exact absurd hfi (by simp)
  · rintro ⟨hx0, hx5, hxh⟩
    refine ⟨(h - x).toNat, List.mem_range.mpr (by omega), ?_⟩
    rw [if_pos (by omega)]
    congr 1
    omega

lemma blockNumbers_pairwise (h : Int) :
    List.Pairwise (· > ·) (NetworkStats.blockNumbers h) := by
  have key : ∀ a a' : Nat, a < a' →
      ∀ b ∈ (if 0 ≤ h - (a : Int) then some (h - (a : Int)) else none),
      ∀ b' ∈ (if 0 ≤ h - (a' : Int) then some (h - (a' : Int)) else none),
      b > b' := by
    intro a a' hlt b hb b' hb'
    split at hb
    · split at hb'
      · simp only [Option.mem_def, Option.some.injEq] at hb hb'
        omega
      · exact absurd hb' (by simp)
    · exact absurd hb (by simp)
  exact List.Pairwise.filterMap _ key (List.pairwise_lt_range 6)

lemma blockNumbers_length_le (h : Int) : (NetworkStats.blockNumbers h).length ≤ 6 := by
  have hle := List.length_filterMap_le
    (fun i : Nat => if 0 ≤ h - (i : Int) then some (h - (i : Int)) else none)
    (List.range 6)
  simpa [NetworkStats.blockNumbers] using hle

lemma blockNumbers_ne_nil {h : Int} (hh : 0 ≤ h) : NetworkStats.blockNumbers h ≠ [] := by
  intro hnil
  have hmem : h ∈ NetworkStats.blockNumbers h :=
    mem_blockNumbers.mpr ⟨hh, by omega, le_refl h⟩
  rw [hnil] at hmem
  exact absurd hmem (List.not_mem_nil h)

lemma explorer_format_eq (a d : Nat) :
    TokenExplorer.formatTokenAmount a d =
      if (fracDigits a d).length = 0 then ⟨groupedDigits (a / 10 ^ d)⟩
      else ⟨groupedDigits (a / 10 ^ d) ++ '.' :: fracDigits a d⟩ := rfl

lemma portfolio_format_eq (a d : Nat) :
    Portfolio.formatTokenAmount a d =
      if ((fracDigits a d).take 4).length = 0 then ⟨groupedDigits (a / 10 ^ d)⟩
      else ⟨groupedDigits (a / 10 ^ d) ++ '.' :: (fracDigits a d).take 4⟩ := rfl

example : TokenExplorer.formatTokenAmount 123456789 6 = "123.456789" := by decide
example : TokenExplorer.formatTokenAmount 100000000 8 = "1" := by decide
example : TokenExplorer.formatTokenAmount 1234567 3 = "1,234.567" := by decide
example : Portfolio.formatTokenAmount 123456789 6 = "123.4567" := by decide
example : Portfolio.calcSupplyShare 1000000 3000000 = 3333 / 100 := by
  norm_num [Portfolio.calcSupplyShare]
example : Portfolio.jsTrim "  bc1p  " = "bc1p" := by decide
example : NetworkStats.blockNumbers 7 = [7, 6, 5, 4, 3, 2] := by decide
example : NetworkStats.blockNumbers 2 = [2, 1, 0] := by decide

lemma fetchData_snd_eq (now : Nat) (s : NetworkStats.NSState)
    (o : NetworkStats.FetchOutcome) (h : Int) (g : NetworkStats.GasData)
    (hhg : o.headAndGas = some (h, g)) :
    (NetworkStats.fetchData true now s o).2 =
      match s.blockHeight with
      | none => none
      | some p => if h = p then none else some 1000 := by
  simp only [NetworkStats.fetchData, hhg]
  rcases hsb : s.blockHeight with _ | p
  · rfl
  · by_cases hp : h = p <;> simp [hp]

/-- C9: on a poll cycle with no previously observed head height (stored
`blockHeight` still `null`), no pulse is emitted — no pulse-clear timeout is
scheduled and the pulse flag is left untouched — regardless of the fetched
height and of which fetch steps succeed. -/
theorem no_pulse_on_first_poll (connected : Bool) (now : Nat)
    (s : NetworkStats.NSState) (o : NetworkStats.FetchOutcome)
    (hprev : s.blockHeight = none) :
    (NetworkStats.fetchData connected now s o).2 = none ∧
    (NetworkStats.fetchData connected now s o).1.pulseBlock = s.pulseBlock := by
  cases connected
  · simp [NetworkStats.fetchData]
  · rcases hhg : o.headAndGas with _ | ⟨h, g⟩
    · simp [NetworkStats.fetchData, hhg]
    · rcases hbh : o.blockAtHead with _ | b <;>
        rcases hbb : o.blockBatch with _ | bs <;>
          simp [NetworkStats.fetchData, hhg, hbh, hbb, hprev] <;>
            (try (split <;> simp))

/-- Witness for `no_pulse_on_first_poll`: the freshly mounted component
state receives a fully successful cycle and still emits no pulse. -/
theorem no_pulse_on_first_poll_witness :
    (NetworkStats.fetchData true 80 NetworkStats.initialNSState
        NetworkStats.outcomeFull7).2 = none ∧
    (NetworkStats.fetchData true 80 NetworkStats.initialNSState
        NetworkStats.outcomeFull7).1.pulseBlock
      = NetworkStats.initialNSState.pulseBlock :=
  no_pulse_on_first_poll true 80 NetworkStats.initialNSState
    NetworkStats.outcomeFull7 rfl

/-- C1 counterexample: with previously observed head height 5 and newly
fetched head height 3, the code emits a pulse and schedules its 1000 ms
clear, although 3 is not strictly greater than 5 — the code compares the
heights with `!==`, not with `>`. -/
theorem pulse_emitted_on_height_decrease :
    (NetworkStats.fetchData true 60 NetworkStats.stateAt5
        NetworkStats.outcomeDrop3).2 = some 1000 ∧
    ¬ ((3 : Int) > 5) := by decide

/-- C1 (amended): for every poll cycle with a previously observed head
height, a pulse is emitted if and only if the newly fetched head height is
different from (not necessarily greater than) the previously observed one,
and the scheduled pulse-clear delay is always exactly 1000 ms. -/
theorem pulse_iff_height_changed (now : Nat) (s : NetworkStats.NSState)
    (o : NetworkStats.FetchOutcome) (h p : Int) (g : NetworkStats.GasData)
    (hprev : s.blockHeight = some p) (hhg : o.headAndGas = some (h, g)) :
    ((NetworkStats.fetchData true now s o).2 ≠ none ↔ h ≠ p) ∧
    (NetworkStats.fetchData true now s o).2
      = (if h = p then none else some 1000) := by
  rw [fetchData_snd_eq now s o h g hhg, hprev]
  by_cases hp : h = p <;> simp [hp]

/-- Witness for `pulse_iff_height_changed`: a concrete cycle moving the head
from 5 to 6. -/
theorem pulse_iff_height_changed_witness :
    ((NetworkStats.fetchData true 60 NetworkStats.stateAt5
        NetworkStats.outcomeBlockFail6).2 ≠ none ↔ (6 : Int) ≠ 5) ∧
    (NetworkStats.fetchData true 60 NetworkStats.stateAt5
        NetworkStats.outcomeBlockFail6).2
      = (if (6 : Int) = 5 then none else some 1000) :=
  pulse_iff_height_changed 60 NetworkStats.stateAt5
    NetworkStats.outcomeBlockFail6 6 5 NetworkStats.gas0 rfl rfl

/-- C2 counterexample: a cycle in which the head-and-gas fetch succeeds
(height 6) but the subsequent `getBlock` call fails leaves the published
state partially mutated — head height, gas data and last-updated are
already replaced while latest block and recent blocks are not — refuting
the claim that a failing cycle leaves the previous chain state entirely
unchanged. -/
theorem partial_publish_on_block_fetch_failure :
    (NetworkStats.fetchData true 60 NetworkStats.stateAt5
        NetworkStats.outcomeBlockFail6).1.blockHeight = some 6 ∧
    (NetworkStats.fetchData true 60 NetworkStats.stateAt5
        NetworkStats.outcomeBlockFail6).1.lastUpdate = 60 ∧
    (NetworkStats.fetchData true 60 NetworkStats.stateAt5
        NetworkStats.outcomeBlockFail6).1.latestBlock
      = NetworkStats.stateAt5.latestBlock ∧
    (NetworkStats.fetchData true 60 NetworkStats.stateAt5
        NetworkStats.outcomeBlockFail6).1 ≠ NetworkStats.stateAt5 := by decide

/-- C2 (amended): only a failure of the initial combined head-and-gas fetch
aborts the cycle with the published state entirely unchanged; when a later
step fails, the fields published before it keep their newly written values
(head height, gas data, last-updated — and latest block when only the
recent-blocks batch fetch fails) while the fields after the failing step
retain their previous values.  The snapshot is published field by field,
not replaced wholesale. -/
theorem fetch_failure_effects (now : Nat) (s : NetworkStats.NSState)
    (o : NetworkStats.FetchOutcome) :
    (o.headAndGas = none → (NetworkStats.fetchData true now s o).1 = s) ∧
    (∀ h g, o.headAndGas = some (h, g) → o.blockAtHead = none →
      (NetworkStats.fetchData true now s o).1.blockHeight = some h ∧
      (NetworkStats.fetchData true now s o).1.gasData = some g ∧
      (NetworkStats.fetchData true now s o).1.lastUpdate = now ∧
      (NetworkStats.fetchData true now s o).1.latestBlock = s.latestBlock ∧
      (NetworkStats.fetchData true now s o).1.recentBlocks = s.recentBlocks) ∧
    (∀ h g b, o.headAndGas = some (h, g) → o.blockAtHead = some b →
      o.blockBatch = none →
      (NetworkStats.fetchData true now s o).1.blockHeight = some h ∧
      (NetworkStats.fetchData true now s o).1.latestBlock
        = some (NetworkStats.toBlockData b) ∧
      (NetworkStats.fetchData true now s o).1.recentBlocks = s.recentBlocks) := by
  refine ⟨?_, ?_, ?_⟩
  · intro hnone
    simp [NetworkStats.fetchData, hnone]
  · intro h g hhg hbh
    simp [NetworkStats.fetchData, hhg, hbh]
  · intro h g b hhg hbh hbb
    simp only [NetworkStats.fetchData, hhg, hbh, hbb]
    split <;> simp

/-- Witness for `fetch_failure_effects`: the first two conjuncts applied to
concrete cycles (a fully failing fetch; a cycle failing at `getBlock`). -/
theorem fetch_failure_effects_witness :
    (NetworkStats.fetchData true 60 NetworkStats.stateAt5
        { headAndGas := none, blockAtHead := none, blockBatch := none }).1
      = NetworkStats.stateAt5 ∧
    (NetworkStats.fetchData true 60 NetworkStats.stateAt5
        NetworkStats.outcomeBlockFail6).1.recentBlocks
      = NetworkStats.stateAt5.recentBlocks :=
  ⟨(fetch_failure_effects 60 NetworkStats.stateAt5
      { headAndGas := none, blockAtHead := none, blockBatch := none }).1 rfl,
   ((fetch_failure_effects 60 NetworkStats.stateAt5
      NetworkStats.outcomeBlockFail6).2.1 6 NetworkStats.gas0 rfl rfl).2.2.2.2⟩

/-- C6 counterexample: after the component is stopped (`clearInterval` has
run, modelled by the `active` flag dropping to `false`), a fetch that was
still in flight at that moment publishes its snapshot anyway when it
completes: the stopped state does change, because the publish steps check
no still-active flag. -/
theorem publish_after_stop :
    (NetworkStats.stopComponent NetworkStats.stateAt5).active = false ∧
    (NetworkStats.fetchData true 70
        (NetworkStats.stopComponent NetworkStats.stateAt5)
        NetworkStats.outcomeFull7).1.blockHeight = some 7 ∧
    (NetworkStats.fetchData true 70
        (NetworkStats.stopComponent NetworkStats.stateAt5)
        NetworkStats.outcomeFull7).1
      ≠ NetworkStats.stopComponent NetworkStats.stateAt5 := by decide

/-- C6 (amended): tearing the component down only cancels the scheduled
interval; the publish step of `fetchData` checks no still-active flag, so a
fetch in flight at the moment of stop still publishes its snapshot when it
completes (any discarding of such updates is left to the React runtime,
not performed by this code). -/
theorem fetch_ignores_stop_flag (now : Nat) (s : NetworkStats.NSState)
    (o : NetworkStats.FetchOutcome) (h : Int) (g : NetworkStats.GasData)
    (hstop : s.active = false) (hhg : o.headAndGas = some (h, g)) :
    (NetworkStats.fetchData true now s o).1.blockHeight = some h ∧
    (NetworkStats.fetchData true now s o).1.gasData = some g ∧
    (NetworkStats.fetchData true now s o).1.lastUpdate = now ∧
    (NetworkStats.fetchData true now s o).1.active = false := by
  rcases hbh : o.blockAtHead with _ | b <;>
    rcases hbb : o.blockBatch with _ | bs <;>
      simp [NetworkStats.fetchData, hhg, hbh, hbb, hstop] <;>
        (try (split <;> simp [hstop]))

/-- Witness for `fetch_ignores_stop_flag`: a concrete stopped state
receiving the completion of an in-flight successful fetch. -/
theorem fetch_ignores_stop_flag_witness :
    (NetworkStats.fetchData true 70
        (NetworkStats.stopComponent NetworkStats.stateAt5)
        NetworkStats.outcomeFull7).1.blockHeight = some 7 ∧
    (NetworkStats.fetchData true 70
        (NetworkStats.stopComponent NetworkStats.stateAt5)
        NetworkStats.outcomeFull7).1.gasData = some NetworkStats.gas0 ∧
    (NetworkStats.fetchData true 70
        (NetworkStats.stopComponent NetworkStats.stateAt5)
        NetworkStats.outcomeFull7).1.lastUpdate = 70 ∧
    (NetworkStats.fetchData true 70
        (NetworkStats.stopComponent NetworkStats.stateAt5)
        NetworkStats.outcomeFull7).1.active = false :=
  fetch_ignores_stop_flag 70 (NetworkStats.stopComponent NetworkStats.stateAt5)
    NetworkStats.outcomeFull7 7 NetworkStats.gas0 rfl rfl

/-- C8: after a successful poll cycle at head height `h ≥ 0` (all steps
resolve, and the batch response carries one block per requested height, in
request order), the recent-blocks sequence has length at most 6, its
heights are exactly the non-negative members of
`{h, h - 1, ..., h - 5}` in strictly descending order, with no duplicates
and no negative heights. -/
theorem recentBlocks_window_spec (now : Nat) (s : NetworkStats.NSState)
    (o : NetworkStats.FetchOutcome) (h : Int) (g : NetworkStats.GasData)
    (b : NetworkStats.BlockData) (bs : List NetworkStats.BlockData)
    (hh : 0 ≤ h) (hhg : o.headAndGas = some (h, g))
    (hbh : o.blockAtHead = some b) (hbb : o.blockBatch = some bs)
    (hfaithful : bs.map NetworkStats.BlockData.height = NetworkStats.blockNumbers h) :
    ((NetworkStats.fetchData true now s o).1.recentBlocks.map
        NetworkStats.BlockData.height = NetworkStats.blockNumbers h) ∧
    (NetworkStats.fetchData true now s o).1.recentBlocks.length ≤ 6 ∧
    List.Chain' (· > ·)
      ((NetworkStats.fetchData true now s o).1.recentBlocks.map
        NetworkStats.BlockData.height) ∧
    ((NetworkStats.fetchData true now s o).1.recentBlocks.map
        NetworkStats.BlockData.height).Nodup ∧
    (∀ x ∈ (NetworkStats.fetchData true now s o).1.recentBlocks.map
        NetworkStats.BlockData.height, 0 ≤ x) ∧
    (∀ x : Int,
      x ∈ (NetworkStats.fetchData true now s o).1.recentBlocks.map
        NetworkStats.BlockData.height ↔ 0 ≤ x ∧ h - 5 ≤ x ∧ x ≤ h) := by
  have hrb : (NetworkStats.fetchData true now s o).1.recentBlocks
      = bs.map NetworkStats.toBlockData := by
    simp only [NetworkStats.fetchData, hhg, hbh, hbb]
    rw [if_pos (List.length_pos.mpr (blockNumbers_ne_nil hh))]
  have hcomp : NetworkStats.BlockData.height ∘ NetworkStats.toBlockData
      = NetworkStats.BlockData.height := rfl
  have hmap : (NetworkStats.fetchData true now s o).1.recentBlocks.map
      NetworkStats.BlockData.height = NetworkStats.blockNumbers h := by
    rw [hrb, List.map_map, hcomp, hfaithful]
  refine ⟨hmap, ?_, ?_, ?_, ?_, ?_⟩
  · have hlen : ((NetworkStats.fetchData true now s o).1.recentBlocks.map
        NetworkStats.BlockData.height).length ≤ 6 := by
      rw [hmap]; exact blockNumbers_length_le h
    simpa using hlen
  · rw [hmap]
    exact List.chain'_iff_pairwise.mpr (blockNumbers_pairwise h)
  · rw [hmap]
    exact (blockNumbers_pairwise h).nodup
  · intro x hx
    rw [hmap] at hx
    exact (mem_blockNumbers.mp hx).1
  · intro x
    rw [hmap]
    exact mem_blockNumbers

/-- Witness for `recentBlocks_window_spec`: a concrete fully successful
cycle at height 7. -/
theorem recentBlocks_window_spec_witness :
    ((NetworkStats.fetchData true 80 NetworkStats.initialNSState
        NetworkStats.outcomeFull7).1.recentBlocks.map
        NetworkStats.BlockData.height = NetworkStats.blockNumbers 7) ∧
    (NetworkStats.fetchData true 80 NetworkStats.initialNSState
        NetworkStats.outcomeFull7).1.recentBlocks.length ≤ 6 ∧
    List.Chain' (· > ·)
      ((NetworkStats.fetchData true 80 NetworkStats.initialNSState
        NetworkStats.outcomeFull7).1.recentBlocks.map
        NetworkStats.BlockData.height) ∧
    ((NetworkStats.fetchData true 80 NetworkStats.initialNSState
        NetworkStats.outcomeFull7).1.recentBlocks.map
        NetworkStats.BlockData.height).Nodup ∧
    (∀ x ∈ (NetworkStats.fetchData true 80 NetworkStats.initialNSState
        NetworkStats.outcomeFull7).1.recentBlocks.map
        NetworkStats.BlockData.height, 0 ≤ x) ∧
    (∀ x : Int,
      x ∈ (NetworkStats.fetchData true 80 NetworkStats.initialNSState
        NetworkStats.outcomeFull7).1.recentBlocks.map
        NetworkStats.BlockData.height ↔ 0 ≤ x ∧ 7 - 5 ≤ x ∧ x ≤ 7) :=
  recentBlocks_window_spec 80 NetworkStats.initialNSState
    NetworkStats.outcomeFull7 7 NetworkStats.gas0 (NetworkStats.mkBlock 7)
    [NetworkStats.mkBlock 7, NetworkStats.mkBlock 6, NetworkStats.mkBlock 5,
      NetworkStats.mkBlock 4, NetworkStats.mkBlock 3, NetworkStats.mkBlock 2]
    (by decide) rfl rfl rfl (by decide)

/-- C5: the shared token-amount formatter of the TokenExplorer returns the
grouped integer part (truncating division by `10 ^ decimals`, never
rounding) and, exactly when the fractional part of the amount is not
entirely zero, appends `'.'` followed by the fractional digits with
trailing zeros stripped; in particular `123456789` with 6 decimals formats
as `"123.456789"` and `100000000` with 8 decimals as `"1"`. -/
theorem explorer_format_spec :
    (∀ a d : Nat, a % 10 ^ d = 0 →
        TokenExplorer.formatTokenAmount a d = ⟨groupedDigits (a / 10 ^ d)⟩) ∧
    (∀ a d : Nat, a % 10 ^ d ≠ 0 →
        TokenExplorer.formatTokenAmount a d =
          ⟨groupedDigits (a / 10 ^ d) ++ '.' :: fracDigits a d⟩) ∧
    TokenExplorer.formatTokenAmount 123456789 6 = "123.456789" ∧
    TokenExplorer.formatTokenAmount 100000000 8 = "1" := by
  refine ⟨?_, ?_, by decide, by decide⟩
  · intro a d h
    rw [explorer_format_eq, if_pos]
    rw [List.length_eq_zero, fracDigits_eq_nil_iff]
    exact h
  · intro a d h
    rw [explorer_format_eq, if_neg]
    rw [List.length_eq_zero, fracDigits_eq_nil_iff]
    exact h

/-- Witness for `explorer_format_spec`: both conditional conjuncts applied
at concrete inputs. -/
theorem explorer_format_spec_witness :
    TokenExplorer.formatTokenAmount 500 2 = ⟨groupedDigits (500 / 10 ^ 2)⟩ ∧
    TokenExplorer.formatTokenAmount 505 2 =
      ⟨groupedDigits (505 / 10 ^ 2) ++ '.' :: fracDigits 505 2⟩ :=
  ⟨explorer_format_spec.1 500 2 (by decide),
   explorer_format_spec.2.1 505 2 (by decide)⟩

/-- C10: the Portfolio formatter displays at most the first 4 digits of the
trailing-zero-stripped fractional part (truncating, never rounding), and
its output agrees with the TokenExplorer full-precision formatter exactly
when that stripped fractional part has at most 4 digits. -/
theorem portfolio_format_truncation :
    ∀ a d : Nat,
      (a % 10 ^ d ≠ 0 →
        Portfolio.formatTokenAmount a d =
          ⟨groupedDigits (a / 10 ^ d) ++ '.' :: (fracDigits a d).take 4⟩) ∧
      (Portfolio.formatTokenAmount a d = TokenExplorer.formatTokenAmount a d ↔
        (fracDigits a d).length ≤ 4) := by
  intro a d
  constructor
  · intro h
    rw [portfolio_format_eq, if_neg]
    rw [List.length_take]
    intro hlen
    have hz : (fracDigits a d).length = 0 := by omega
    exact h ((fracDigits_eq_nil_iff a d).mp (List.length_eq_zero.mp hz))
  · by_cases h : a % 10 ^ d = 0
    · have hnil : fracDigits a d = [] := (fracDigits_eq_nil_iff a d).mpr h
      rw [portfolio_format_eq, explorer_format_eq, hnil]
      simp
    · have hne : fracDigits a d ≠ [] := fun hc => h ((fracDigits_eq_nil_iff a d).mp hc)
      have hlen : 0 < (fracDigits a d).length := List.length_pos.mpr hne
      rw [portfolio_format_eq, explorer_format_eq,
        if_neg (by rw [List.length_take]; omega), if_neg (by omega)]
      rw [string_mk_inj]
      constructor
      · intro heq
        have h2 : (fracDigits a d).take 4 = fracDigits a d := by simpa using heq
        have h3 := congrArg List.length h2
        rw [List.length_take] at h3
        omega
      · intro hle
        rw [List.take_of_length_le hle]

/-- Witness for `portfolio_format_truncation`: the truncation equation
applied at a concrete input with a nonzero fractional part. -/
theorem portfolio_format_truncation_witness :
    Portfolio.formatTokenAmount 123456789 6 =
      ⟨groupedDigits (123456789 / 10 ^ 6) ++ '.' :: (fracDigits 123456789 6).take 4⟩ :=
  (portfolio_format_truncation 123456789 6).1 (by decide)

/-- C3 counterexample: `calcSupplyShare` applies no clamping to `[0, 100]` —
with `balance = 2` and `totalSupply = 1` the code returns `200`, while the
claim's clamp would cap it at `100`. -/
theorem calcSupplyShare_not_clamped :
    Portfolio.calcSupplyShare 2 1 = 200 ∧ ¬ Portfolio.calcSupplyShare 2 1 ≤ 100 := by
  norm_num [Portfolio.calcSupplyShare]

/-- C3 (amended): the supply share equals
`balance * 10000 / totalSupply` (integer division, truncated toward zero)
divided by `100`, with no clamping applied — the value is always
nonnegative, is at most `100` whenever `balance ≤ totalSupply`, and can
exceed `100` when `balance > totalSupply` (with `balance = 2`,
`totalSupply = 1` it is `200`); if `totalSupply = 0` the share is `0` for
any balance; `balance = 1000000` with `totalSupply = 3000000` yields
`33.33`. -/
theorem calcSupplyShare_spec :
    (∀ b : Nat, Portfolio.calcSupplyShare b 0 = 0) ∧
    (∀ b ts : Nat, ts ≠ 0 →
        Portfolio.calcSupplyShare b ts = (((b * 10000) / ts : Nat) : ℚ) / 100) ∧
    (∀ b ts : Nat, 0 ≤ Portfolio.calcSupplyShare b ts) ∧
    (∀ b ts : Nat, b ≤ ts → Portfolio.calcSupplyShare b ts ≤ 100) ∧
    Portfolio.calcSupplyShare 1000000 3000000 = 3333 / 100 ∧
    100 < Portfolio.calcSupplyShare 2 1 := by
  refine ⟨?_, ?_, ?_, ?_, by norm_num [Portfolio.calcSupplyShare],
    by norm_num [Portfolio.calcSupplyShare]⟩
  · intro b
    simp [Portfolio.calcSupplyShare]
  · intro b ts h
    simp [Portfolio.calcSupplyShare, h]
  · intro b ts
    unfold Portfolio.calcSupplyShare
    split
    · norm_num
    · positivity
  · intro b ts hbt
    unfold Portfolio.calcSupplyShare
    split
    · norm_num
    · rename_i hts
      have hdiv : (b * 10000) / ts ≤ 10000 := by
        calc (b * 10000) / ts ≤ (ts * 10000) / ts :=
              Nat.div_le_div_right (Nat.mul_le_mul_right _ hbt)
          _ = 10000 := Nat.mul_div_cancel_left _ (Nat.pos_of_ne_zero hts)
      have hcast : (((b * 10000) / ts : Nat) : ℚ) ≤ 10000 := by exact_mod_cast hdiv
      rw [div_le_iff₀ (by norm_num)]
      linarith

/-- Witness for `calcSupplyShare_spec`: the conditional conjuncts applied at
concrete inputs. -/
theorem calcSupplyShare_spec_witness :
    Portfolio.calcSupplyShare 1 4 = (((1 * 10000) / 4 : Nat) : ℚ) / 100 ∧
    Portfolio.calcSupplyShare 1 4 ≤ 100 :=
  ⟨calcSupplyShare_spec.2.1 1 4 (by norm_num),
   calcSupplyShare_spec.2.2.2.1 1 4 (by norm_num)⟩

lemma any_address_eq_false {s : Portfolio.PortfolioState} {addr : String}
    (hdup : ∀ t ∈ s.tokens, t.address ≠ addr) :
    s.tokens.any (fun t => t.address == addr) = false := by
  rw [List.any_eq_false]
  intro t ht
  simpa using hdup t ht

/-- C4: for every `addToken` call that passes validation, a failure of the
joined name/symbol/decimals/total-supply fetch aborts the add — the error is
surfaced and the collection is left unchanged, with no partial entry — while
a failure of only the balance-of fetch (or the absence of a connected
identity) still appends the holding, with balance 0 and every
already-tracked holding untouched. -/
theorem addToken_failure_semantics (ctx : Portfolio.AddContext)
    (s : Portfolio.PortfolioState) (o : Portfolio.AddOutcome)
    (hconn : ctx.connected = true)
    (haddr : Portfolio.jsTrim s.inputAddr ≠ "")
    (hdup : ∀ t ∈ s.tokens, t.address ≠ Portfolio.jsTrim s.inputAddr) :
    (∀ msg, o.metadata = .error msg →
      Portfolio.addToken ctx s o =
        { s with loading := false,
                 error := some ("Failed to load token: " ++ msg) }) ∧
    (∀ name symbol decimals supply,
      o.metadata = .ok (name, symbol, decimals, supply) →
      (o.balanceOf = none ∨ (ctx.walletConnected && ctx.hasWalletObj) = false) →
      (Portfolio.addToken ctx s o).tokens =
        s.tokens ++
          [{ address := Portfolio.jsTrim s.inputAddr, name := name,
             symbol := symbol, decimals := decimals, totalSupply := supply,
             balance := 0,
             supplyShare := Portfolio.calcSupplyShare 0 supply }]) := by
  have hany := any_address_eq_false hdup
  constructor
  · intro msg hmsg
    simp [Portfolio.addToken, haddr, hconn, hany, hmsg]
  · intro name symbol decimals supply hok hbal
    rcases hbal with hb | hb
    · simp [Portfolio.addToken, Portfolio.fetchedBalance, haddr, hconn, hany, hok, hb]
    · simp [Portfolio.addToken, Portfolio.fetchedBalance, haddr, hconn, hany, hok, hb]

/-- Witness for `addToken_failure_semantics`: a metadata failure leaves the
collection unchanged with the error surfaced; a balance-of failure still
appends the holding with balance 0. -/
theorem addToken_failure_semantics_witness :
    Portfolio.addToken Portfolio.ctxNoWallet Portfolio.stateReady
        Portfolio.outcomeMetaFail =
      { Portfolio.stateReady with loading := false, error := some ("Failed to load token: " ++ "boom") } ∧
    (Portfolio.addToken Portfolio.ctxWallet Portfolio.stateReady
        Portfolio.outcomeMetaOk).tokens =
      Portfolio.stateReady.tokens ++
        [{ address := Portfolio.jsTrim Portfolio.stateReady.inputAddr,
           name := "Token", symbol := "TKN", decimals := 8,
           totalSupply := 1000, balance := 0,
           supplyShare := Portfolio.calcSupplyShare 0 1000 }] :=
  ⟨(addToken_failure_semantics Portfolio.ctxNoWallet Portfolio.stateReady
      Portfolio.outcomeMetaFail rfl (by decide) (by simp [Portfolio.stateReady])).1
        "boom" rfl,
   (addToken_failure_semantics Portfolio.ctxWallet Portfolio.stateReady
      Portfolio.outcomeMetaOk rfl (by decide) (by simp [Portfolio.stateReady])).2
        "Token" "TKN" 8 1000 rfl (Or.inl rfl)⟩

/-- C7 counterexample: an `add` whose input is blank after trimming is
silently ignored — the state (collection included) is unchanged, but no
descriptive rejection reason is surfaced to the caller: the error field
stays `none`, refuting the claim that such a call is rejected with a
descriptive reason. -/
theorem empty_add_is_silent :
    Portfolio.addToken Portfolio.ctxNoWallet Portfolio.stateBlankInput
        Portfolio.outcomeMetaOk = Portfolio.stateBlankInput ∧
    (Portfolio.addToken Portfolio.ctxNoWallet Portfolio.stateBlankInput
        Portfolio.outcomeMetaOk).error = none := by decide

/-- C7 (amended): an `add` whose address is empty after trimming is silently
ignored — no state change and no error reason; an `add` whose trimmed
address is already present (case-sensitive exact match) is rejected
synchronously with the descriptive reason `Token already added` and the
collection unchanged; and `add(addr)` immediately followed by `add(addr)`
leaves the second call rejected with that reason and the collection exactly
as the first call left it. -/
theorem addToken_validation (ctx : Portfolio.AddContext)
    (s : Portfolio.PortfolioState) (o o' : Portfolio.AddOutcome) :
    (Portfolio.jsTrim s.inputAddr = "" → Portfolio.addToken ctx s o = s) ∧
    (ctx.connected = true → Portfolio.jsTrim s.inputAddr ≠ "" →
      (∃ t ∈ s.tokens, t.address = Portfolio.jsTrim s.inputAddr) →
      Portfolio.addToken ctx s o =
        { s with error := some "Token already added" }) ∧
    (∀ name symbol decimals supply (s2 : Portfolio.PortfolioState),
      ctx.connected = true → Portfolio.jsTrim s.inputAddr ≠ "" →
      (∀ t ∈ s.tokens, t.address ≠ Portfolio.jsTrim s.inputAddr) →
      o.metadata = .ok (name, symbol, decimals, supply) →
      s2.tokens = (Portfolio.addToken ctx s o).tokens →
      s2.inputAddr = s.inputAddr →
      (Portfolio.addToken ctx s2 o').tokens = s2.tokens ∧
      (Portfolio.addToken ctx s2 o').error = some "Token already added" ∧
      (Portfolio.addToken ctx s o).tokens.length = s.tokens.length + 1) := by
  refine ⟨?_, ?_, ?_⟩
  · intro hblank
    simp [Portfolio.addToken, hblank]
  · intro hconn haddr hdup
    obtain ⟨t, ht, hteq⟩ := hdup
    have hany : s.tokens.any
        (fun t => t.address == Portfolio.jsTrim s.inputAddr) = true := by
      rw [List.any_eq_true]
      exact ⟨t, ht, by simpa using hteq⟩
    simp [Portfolio.addToken, haddr, hconn, hany]
  · intro name symbol decimals supply s2 hconn haddr hdup hok hs2tok hs2in
    have hany := any_address_eq_false hdup
    have htoks : (Portfolio.addToken ctx s o).tokens = s.tokens ++
        [{ address := Portfolio.jsTrim s.inputAddr, name := name,
           symbol := symbol, decimals := decimals, totalSupply := supply,
           balance := Portfolio.fetchedBalance ctx o,
           supplyShare := Portfolio.calcSupplyShare
             (Portfolio.fetchedBalance ctx o) supply }] := by
      simp [Portfolio.addToken, haddr, hconn, hany, hok]
    have hany2 : s2.tokens.any
        (fun t => t.address == Portfolio.jsTrim s.inputAddr) = true := by
      rw [hs2tok, htoks, List.any_eq_true]
      exact ⟨_, List.mem_append_right _ (List.mem_singleton.mpr rfl), by simp⟩
    have hsec : Portfolio.addToken ctx s2 o' =
        { s2 with error := some "Token already added" } := by
      simp [Portfolio.addToken, hs2in, haddr, hconn, hany2]
    refine ⟨by rw [hsec], by rw [hsec], by rw [htoks]; simp⟩

/-- Witness for `addToken_validation`: the blank-input, duplicate and
double-add conjuncts applied to concrete states. -/
theorem addToken_validation_witness :
    (Portfolio.addToken Portfolio.ctxNoWallet Portfolio.stateBlankInput
        Portfolio.outcomeMetaFail = Portfolio.stateBlankInput) ∧
    (Portfolio.addToken Portfolio.ctxNoWallet Portfolio.stateWithToken
        Portfolio.outcomeMetaOk =
      { Portfolio.stateWithToken with error := some "Token already added" }) ∧
    ((Portfolio.addToken Portfolio.ctxNoWallet Portfolio.stateAfterAdd
        Portfolio.outcomeMetaOk).tokens = Portfolio.stateAfterAdd.tokens) :=
  ⟨(addToken_validation Portfolio.ctxNoWallet Portfolio.stateBlankInput
      Portfolio.outcomeMetaFail Portfolio.outcomeMetaFail).1 (by decide),
   (addToken_validation Portfolio.ctxNoWallet Portfolio.stateWithToken
      Portfolio.outcomeMetaOk Portfolio.outcomeMetaOk).2.1 rfl (by decide)
      ⟨Portfolio.tokenSample, List.mem_singleton.mpr rfl, by decide⟩,
   ((addToken_validation Portfolio.ctxNoWallet Portfolio.stateReady
      Portfolio.outcomeMetaOk Portfolio.outcomeMetaOk).2.2 "Token" "TKN" 8 1000
      Portfolio.stateAfterAdd rfl (by decide) (by simp [Portfolio.stateReady])
      rfl rfl rfl).1⟩
